import Mathlib

/-!
Verification of the Checkmk Microsoft 365 plugin collection
(`m365_licenses`, `m365_group_based_licensing`, `m365_service_health`).

The Python check plugins are embedded shallowly:

* JSON objects that feed the parsers are modelled by the structured records
  the dataclasses hold (decoding a well-formed object with exactly the
  dataclass fields is a bijection, so the record itself stands for the
  input object);
* Python `dict` construction (insertion order, last write wins) is modelled
  by ordered association lists with an insert-or-replace operation;
* Python numbers are modelled exactly: `int` by `ℕ`/`ℤ`, float arithmetic
  by `ℚ`; `round(x, 2)` is round-half-to-even at two decimals;
* the Checkmk framework objects `Result` and `Metric` are modelled by
  records holding the data the check computes; string rendering performed
  by the external framework (`render.percent`, f-string formatting) is
  abstracted into structured fields kept in composition order, and the
  check-result details block is not modelled;
* a check function is a generator yielding `Result`/`Metric` values: it is
  modelled as a function returning the list of yielded values; the licenses
  check, which can raise `ZeroDivisionError`, returns `Except`.
-/

/-- Checkmk `State`: OK = 0, WARN = 1, CRIT = 2, UNKNOWN = 3. -/
inductive CmkState where
  | ok
  | warn
  | crit
  | unknown
deriving DecidableEq, Repr

/-- Checkmk `State(int)` conversion; the `ServiceState` form only produces
values 0..3, so the catch-all arm is unreachable from the rulesets. -/
def CmkState.fromNat : ℕ → CmkState
  | 0 => .ok
  | 1 => .warn
  | 2 => .crit
  | _ => .unknown

/-- Checkmk `State.worst(*args)`: CRIT if any argument is CRIT, otherwise
the numeric maximum (so CRIT > UNKNOWN > WARN > OK).  The Python method is
only ever called with a non-empty argument list. -/
def CmkState.worst (l : List ℕ) : CmkState :=
  if 2 ∈ l then .crit else CmkState.fromNat (l.foldr max 0)

/-- Python `round` at integer precision: round half to even.
`q.num.fdiv q.den` is `⌊q⌋`. -/
def pyRoundHalfEven (q : ℚ) : ℤ :=
  let n : ℤ := q.num.fdiv (q.den : ℤ)
  let f : ℚ := q - (n : ℚ)
  if f < 1 / 2 then n
  else if 1 / 2 < f then n + 1
  else if n % 2 = 0 then n else n + 1

/-- Python `round(x, 2)`. -/
def pyRound2 (q : ℚ) : ℚ :=
  (pyRoundHalfEven (q * 100) : ℚ) / 100

/-- Checkmk `Metric(name=..., value=..., levels=...)`; `levels=(None, None)`
is modelled as `none`. -/
structure CmkMetric where
  name : String
  value : ℚ
  levels : Option (ℚ × ℚ)
deriving DecidableEq, Repr

/-- Python `dict` insert `m[k] = v`: replace in place if the key exists,
else append (insertion order is preserved). -/
def dictUpdate {α : Type} (m : List (String × α)) (k : String) (v : α) :
    List (String × α) :=
  if m.any (fun p => p.1 = k) then
    m.map (fun p => if p.1 = k then (p.1, v) else p)
  else
    m ++ [(k, v)]

/-- `dict.get(k)` on an association list built with `dictUpdate`. -/
def dictGet {α : Type} (m : List (String × α)) (k : String) : Option α :=
  m.lookup k

/-! ## m365_licenses -/

/-- `License` dataclass of `m365_licenses.py`; also stands for the JSON
object it is parsed from (all unit counts are non-negative). -/
structure License where
  lic_sku_id : String
  lic_sku_name : String
  lic_state : String
  lic_units_consumed : ℕ
  lic_units_enabled : ℕ
  lic_units_lockedout : ℕ
  lic_units_suspended : ℕ
  lic_units_warning : ℕ
deriving DecidableEq, Repr

/-- `parse_m365_licenses`: build the `sku_name → License` mapping in input
order, later duplicates overwriting earlier ones (Python dict semantics). -/
def parse_m365_licenses (items : List License) : List (String × License) :=
  items.foldl (fun parsed item => dictUpdate parsed item.lic_sku_name item) []

/-- The tagged value of `params["lic_unit_available_lower"]`:
`("lic_unit_available_lower_pct", ("fixed", (w, c)) | ("no_levels", None))`,
the absolute twin, or `("lic_overlicensed", None)`.  A `("fixed", levels)`
payload is `some levels` (a non-empty tuple is truthy even at `(0, 0)`),
a `("no_levels", None)` payload is `none` (falsy). -/
inductive LicUnitAvailableLower where
  | lic_unit_available_lower_pct (levels : Option (ℚ × ℚ))
  | lic_unit_available_lower_abs (levels : Option (ℤ × ℤ))
  | lic_overlicensed
deriving DecidableEq, Repr

/-- The threshold note appended to the summary (`result_level`); the empty
string is `none`.  The rendered text of the Python f-string is abstracted
to the values it interpolates. -/
inductive LicResultLevelInfo where
  | pct (warning_level critical_level : ℚ)
  | abs (warning_level critical_level : ℤ)
deriving DecidableEq, Repr

/-- The `Result` yielded by `check_m365_licenses`: the state and the
summary's interpolated values, in composition order (the details block is
not modelled). -/
structure LicResult where
  state : CmkState
  consumed_pct : ℚ
  consumed : ℕ
  total : ℕ
  available : ℤ
  result_level : Option LicResultLevelInfo
  warning_shown : Option ℕ
  lic_state : String
deriving DecidableEq, Repr

/-- One yielded value of `check_m365_licenses`. -/
inductive LicOut where
  | result (r : LicResult)
  | metric (m : CmkMetric)
deriving DecidableEq, Repr

/-- Python exceptions the licenses check can raise. -/
inductive CheckError where
  | divisionByZero
deriving DecidableEq, Repr

/-! The local variables of `check_m365_licenses` are lifted to named
definitions so that theorems can quote the very formulas of the source. -/

/-- `lic_units_total = license.lic_units_enabled + license.lic_units_warning`. -/
def lic_units_total (license : License) : ℕ :=
  license.lic_units_enabled + license.lic_units_warning

/-- `lic_units_consumed_pct = round(consumed / total * 100, 2)` (raises
`ZeroDivisionError` when the total is zero; the check guards that case
before this formula is evaluated). -/
def lic_units_consumed_pct (license : License) : ℚ :=
  pyRound2 ((license.lic_units_consumed : ℚ) / (lic_units_total license : ℚ) * 100)

/-- `lic_units_available_raw = lic_units_total - consumed`; negative when
more licenses are assigned than available. -/
def lic_units_available_raw (license : License) : ℤ :=
  (lic_units_total license : ℤ) - (license.lic_units_consumed : ℤ)

/-- `lic_units_available = max(0, lic_units_available_raw)`. -/
def lic_units_available (license : License) : ℤ :=
  max 0 (lic_units_available_raw license)

/-- `available_pct = lic_units_available_raw / lic_units_total * 100`
(percentage branch). -/
def available_pct (license : License) : ℚ :=
  (lic_units_available_raw license : ℚ) / (lic_units_total license : ℚ) * 100

/-- `levels_consumed_abs = (total - warning_level, total - critical_level)`
(absolute branch). -/
def levels_consumed_abs (license : License) (warning_level critical_level : ℤ) : ℤ × ℤ :=
  ((lic_units_total license : ℤ) - warning_level,
   (lic_units_total license : ℤ) - critical_level)

/-- The threshold branch of `check_m365_licenses` (source lines 118-160):
given the configured parameters it produces
`(result_state, result_level, levels_consumed_abs, levels_consumed_pct)`,
whose components are initialised `(OK, "", (None, None), (None, None))`
and updated by the mode that applies. -/
def licCheckBranch (params : LicUnitAvailableLower) (license : License) :
    CmkState × Option LicResultLevelInfo × Option (ℤ × ℤ) × Option (ℚ × ℚ) :=
  match params with
  | .lic_overlicensed =>
      (if lic_units_available_raw license < 0 then .crit else .ok, none, none, none)
  | .lic_unit_available_lower_pct none => (.ok, none, none, none)
  | .lic_unit_available_lower_pct (some (warning_level, critical_level)) =>
      (if available_pct license < critical_level then .crit
        else if available_pct license < warning_level then .warn else .ok,
       some (.pct warning_level critical_level),
       none,
       some (100 - warning_level, 100 - critical_level))
  | .lic_unit_available_lower_abs none => (.ok, none, none, none)
  | .lic_unit_available_lower_abs (some (warning_level, critical_level)) =>
      (if (license.lic_units_consumed : ℤ) >
            (levels_consumed_abs license warning_level critical_level).2 then .crit
        else if (license.lic_units_consumed : ℤ) >
            (levels_consumed_abs license warning_level critical_level).1 then .warn
        else .ok,
       some (.abs warning_level critical_level),
       some (levels_consumed_abs license warning_level critical_level),
       none)

/-- `check_m365_licenses(item, params, section)`.  A missing item returns
an empty generator (`.ok []`); `lic_units_total == 0` raises
`ZeroDivisionError` at the `lic_units_consumed_pct` computation. -/
def check_m365_licenses (item : String) (params : LicUnitAvailableLower)
    (sect : List (String × License)) : Except CheckError (List LicOut) :=
  match dictGet sect item with
  | none => .ok []
  | some license =>
    if lic_units_total license = 0 then .error .divisionByZero else
    let branch := licCheckBranch params license
    .ok
      [.result
        { state := branch.1
          consumed_pct := lic_units_consumed_pct license
          consumed := license.lic_units_consumed
          total := lic_units_total license
          available := lic_units_available license
          result_level := branch.2.1
          warning_shown :=
            if license.lic_units_warning > 0 then some license.lic_units_warning else none
          lic_state := license.lic_state },
       .metric ⟨"m365_licenses_total", (lic_units_total license : ℚ), none⟩,
       .metric ⟨"m365_licenses_enabled", (license.lic_units_enabled : ℚ), none⟩,
       .metric ⟨"m365_licenses_consumed", (license.lic_units_consumed : ℚ),
         branch.2.2.1.map (fun p => ((p.1 : ℚ), (p.2 : ℚ)))⟩,
       .metric ⟨"m365_licenses_consumed_pct", lic_units_consumed_pct license, branch.2.2.2⟩,
       .metric ⟨"m365_licenses_available", (lic_units_available license : ℚ), none⟩,
       .metric ⟨"m365_licenses_warning", (license.lic_units_warning : ℚ), none⟩]

/-- First `Result` in the yielded list. -/
def firstLicResult : List LicOut → Option LicResult
  | [] => none
  | .result r :: _ => some r
  | .metric _ :: rest => firstLicResult rest

/-- First metric with the given name in the yielded list. -/
def findLicMetric (name : String) : List LicOut → Option CmkMetric
  | [] => none
  | .result _ :: rest => findLicMetric name rest
  | .metric m :: rest => if m.name = name then some m else findLicMetric name rest

/-- State of the single `Result` of a licenses-check run (`none` when the
run raised or yielded no result). -/
def licResultState (o : Except CheckError (List LicOut)) : Option CmkState :=
  match o with
  | .error _ => none
  | .ok l => (firstLicResult l).map LicResult.state

/-- Summary threshold note (`result_level`) of a licenses-check run. -/
def licResultLevel (o : Except CheckError (List LicOut)) :
    Option (Option LicResultLevelInfo) :=
  match o with
  | .error _ => none
  | .ok l => (firstLicResult l).map LicResult.result_level

/-- Available count shown by a licenses-check run. -/
def licResultAvailable (o : Except CheckError (List LicOut)) : Option ℤ :=
  match o with
  | .error _ => none
  | .ok l => (firstLicResult l).map LicResult.available

/-- Value of the named metric of a licenses-check run. -/
def licMetricValue (name : String) (o : Except CheckError (List LicOut)) : Option ℚ :=
  match o with
  | .error _ => none
  | .ok l => (findLicMetric name l).map CmkMetric.value

/-- Levels of the named metric of a licenses-check run. -/
def licMetricLevels (name : String) (o : Except CheckError (List LicOut)) :
    Option (Option (ℚ × ℚ)) :=
  match o with
  | .error _ => none
  | .ok l => (findLicMetric name l).map CmkMetric.levels

/-! ## m365_group_based_licensing -/

/-- `Group` dataclass of `m365_group_based_licensing.py` (named `M365Group`
here because `Group` is taken by Mathlib); also stands for the JSON object
it is parsed from. -/
structure M365Group where
  group_id : String
  group_name : String
deriving DecidableEq, Repr

/-- `parse_m365_group_based_licensing`: append each decoded group to the
parsed list, in input order. -/
def parse_m365_group_based_licensing (groups : List M365Group) : List M365Group :=
  groups.foldl (fun parsed group => parsed ++ [group]) []

/-- The `Result` yielded by `check_m365_group_based_licensing` (state and
summary; the details block is not modelled).  This check yields no
metrics. -/
structure GrpResult where
  state : CmkState
  summary : String
deriving DecidableEq, Repr

/-- `check_m365_group_based_licensing(section)`. -/
def check_m365_group_based_licensing (sect : List M365Group) : List GrpResult :=
  let groups := sect
  if groups.isEmpty then
    [{ state := .ok, summary := "No groups with errors" }]
  else
    [{ state := .crit, summary := "Groups with errors: " ++ toString groups.length }]

/-! ## m365_service_health -/

/-- `ServiceIssue` dataclass of `m365_service_health.py`; also stands for
the JSON object it is parsed from. -/
structure ServiceIssue where
  issue_title : String
  issue_start : String
  issue_feature : String
  issue_classification : String
  issue_id : String
deriving DecidableEq, Repr

/-- `MicrosoftService` dataclass; the parser rebuilds it field by field
from the decoded object, so the record also stands for the input object. -/
structure MicrosoftService where
  service_name : String
  service_status : String
  service_issues : List ServiceIssue
deriving DecidableEq, Repr

/-- `parse_m365_service_health`: build the `service_name → MicrosoftService`
mapping in input order, later duplicates overwriting earlier ones. -/
def parse_m365_service_health (items : List MicrosoftService) :
    List (String × MicrosoftService) :=
  items.foldl (fun parsed item => dictUpdate parsed item.service_name item) []

/-- Summary of the `Result` yielded by `check_m365_service_health`: either
the `"Incident: <n>, Advisory: <n>, Status: <status>"` line (modelled by
the values it interpolates) or the `"No open issues"` line. -/
inductive SvcSummary where
  | counts (incident advisory : ℕ) (status : String)
  | noOpenIssues
deriving DecidableEq, Repr

/-- The `Result` yielded by `check_m365_service_health` (the details block
is not modelled). -/
structure SvcResult where
  state : CmkState
  summary : SvcSummary
deriving DecidableEq, Repr

/-- One yielded value of `check_m365_service_health`. -/
inductive SvcOut where
  | result (r : SvcResult)
  | metric (m : CmkMetric)
deriving DecidableEq, Repr

/-- `issue_classification_dict.get(c, 0)`: the number of issues whose
classification equals `c` (the Python code counts by incremental dict
updates; the count per key is the same). -/
def countClassification (issues : List ServiceIssue) (c : String) : ℕ :=
  (issues.filter (fun issue => issue.issue_classification = c)).length

/-- `check_m365_service_health(item, params, section)`.  `params` is the
classification → severity mapping (`params.get(classification, 0)`). -/
def check_m365_service_health (item : String) (params : List (String × ℕ))
    (sect : List (String × MicrosoftService)) : List SvcOut :=
  match dictGet sect item with
  | none => []
  | some m365_service =>
    if m365_service.service_issues.isEmpty then
      [.result { state := .ok, summary := .noOpenIssues },
       .metric ⟨"m365_service_health_count_incident", 0, none⟩,
       .metric ⟨"m365_service_health_count_advisory", 0, none⟩]
    else
      let issue_severity_list : List ℕ :=
        m365_service.service_issues.map
          (fun issue => (dictGet params issue.issue_classification).getD 0)
      let incident_count := countClassification m365_service.service_issues "incident"
      let advisory_count := countClassification m365_service.service_issues "advisory"
      [.result
        { state := CmkState.worst issue_severity_list,
          summary := .counts incident_count advisory_count m365_service.service_status },
       .metric ⟨"m365_service_health_count_incident", (incident_count : ℚ), none⟩,
       .metric ⟨"m365_service_health_count_advisory", (advisory_count : ℚ), none⟩]

/-- First `Result` in the yielded list of the service-health check. -/
def firstSvcResult : List SvcOut → Option SvcResult
  | [] => none
  | .result r :: _ => some r
  | .metric _ :: rest => firstSvcResult rest

/-- First metric with the given name in the yielded list. -/
def findSvcMetric (name : String) : List SvcOut → Option CmkMetric
  | [] => none
  | .result _ :: rest => findSvcMetric name rest
  | .metric m :: rest => if m.name = name then some m else findSvcMetric name rest

/-- State of the single `Result` of a service-health run (`none` when the
run yielded no result). -/
def svcResultState (l : List SvcOut) : Option CmkState :=
  (firstSvcResult l).map SvcResult.state

/-- Value of the named metric of a service-health run. -/
def svcMetricValue (name : String) (l : List SvcOut) : Option ℚ :=
  (findSvcMetric name l).map CmkMetric.value

/-! ## Sample data (the worked examples of the agent documentation) -/

/-- The `VISIOCLIENT` example record of the agent data
(`units_enabled = 50`, `units_warning = 5`, `units_consumed = 44`). -/
def licVisio : License :=
  { lic_sku_id := "c5928f49-12ba-48f7-ada3-0d743a3601d5"
    lic_sku_name := "VISIOCLIENT"
    lic_state := "Enabled"
    lic_units_consumed := 44
    lic_units_enabled := 50
    lic_units_lockedout := 0
    lic_units_suspended := 0
    lic_units_warning := 5 }

/-- A one-entry licenses section holding `licVisio`. -/
def secVisio : List (String × License) := [("VISIOCLIENT", licVisio)]

/-- An over-assigned license (`units_enabled = 10`, `units_warning = 0`,
`units_consumed = 12`). -/
def licOver : License :=
  { lic_sku_id := "over-sku-id"
    lic_sku_name := "OVERSKU"
    lic_state := "Enabled"
    lic_units_consumed := 12
    lic_units_enabled := 10
    lic_units_lockedout := 0
    lic_units_suspended := 0
    lic_units_warning := 0 }

/-- The `THREAT_INTELLIGENCE` example record: a suspended SKU whose total
(`units_enabled + units_warning`) is zero. -/
def licZero : License :=
  { lic_sku_id := "3dd6cf57-d688-4eed-ba52-9e40b5468c3e"
    lic_sku_name := "THREAT_INTELLIGENCE"
    lic_state := "Suspended"
    lic_units_consumed := 0
    lic_units_enabled := 0
    lic_units_lockedout := 0
    lic_units_suspended := 200
    lic_units_warning := 0 }

/-- Two licenses sharing the `sku_name` key `"DUPSKU"`. -/
def licDupA : License :=
  { lic_sku_id := "dup-a"
    lic_sku_name := "DUPSKU"
    lic_state := "Enabled"
    lic_units_consumed := 1
    lic_units_enabled := 2
    lic_units_lockedout := 0
    lic_units_suspended := 0
    lic_units_warning := 0 }

/-- Second record under the `"DUPSKU"` key; overwrites `licDupA` in the
parsed mapping. -/
def licDupB : License :=
  { lic_sku_id := "dup-b"
    lic_sku_name := "DUPSKU"
    lic_state := "Enabled"
    lic_units_consumed := 3
    lic_units_enabled := 4
    lic_units_lockedout := 0
    lic_units_suspended := 0
    lic_units_warning := 0 }

/-- The advisory issue of the agent documentation example. -/
def advisoryIssue : ServiceIssue :=
  { issue_title := "Some users may be unable to view group membership"
    issue_start := "1970-00-00T01:00:00Z"
    issue_feature := "OWA - poor customer experience"
    issue_classification := "advisory"
    issue_id := "EX785433" }

/-- `Exchange Online` with exactly one advisory issue. -/
def svcExchange : MicrosoftService :=
  { service_name := "Exchange Online"
    service_status := "serviceDegradation"
    service_issues := [advisoryIssue] }

/-- A service with an empty issue list. -/
def svcEntra : MicrosoftService :=
  { service_name := "Microsoft Entra"
    service_status := "serviceOperational"
    service_issues := [] }

/-- Default parameters of the service-health check plugin:
`{"incident": 2, "advisory": 1}`. -/
def svcDefaultParams : List (String × ℕ) := [("incident", 2), ("advisory", 1)]

/-! ## Helper lemmas -/

/-- `List.foldr max 0` is bounded by any bound on the list elements. -/
theorem foldr_max_le {l : List ℕ} {b : ℕ} (h : ∀ s ∈ l, s ≤ b) : l.foldr max 0 ≤ b := by
  induction l with
  | nil => exact Nat.zero_le b
  | cons a t ih =>
      exact max_le (h a (List.mem_cons_self a t))
        (ih fun s hs => h s (List.mem_cons_of_mem a hs))

/-- Every list element is bounded by `List.foldr max 0`. -/
theorem le_foldr_max {l : List ℕ} {a : ℕ} (h : a ∈ l) : a ≤ l.foldr max 0 := by
  induction l with
  | nil => cases h
  | cons b t ih =>
      rcases List.mem_cons.mp h with h1 | h2
      · subst h1; exact le_max_left _ _
      · exact le_trans (ih h2) (le_max_right _ _)

/-- Building a dict by `dictUpdate` from key-distinct items appends the
`(key, item)` pairs in input order. -/
theorem foldl_dictUpdate_eq {α : Type} (key : α → String) :
    ∀ (items : List α) (acc : List (String × α)),
      (acc.map Prod.fst ++ items.map key).Nodup →
      items.foldl (fun parsed item => dictUpdate parsed (key item) item) acc
        = acc ++ items.map (fun item => (key item, item)) := by
  intro items
  induction items with
  | nil => intro acc _; simp
  | cons a t ih =>
      intro acc h
      have hnotin : key a ∉ acc.map Prod.fst := by
        intro hmem
        rcases List.nodup_append.mp h with ⟨_, _, hdisj⟩
        exact hdisj hmem (List.mem_cons_self _ _)
      have hupd : dictUpdate acc (key a) a = acc ++ [(key a, a)] := by
        unfold dictUpdate
        rw [if_neg]
        simp only [List.any_eq_true, decide_eq_true_eq, not_exists]
        intro p hp
        exact hnotin (List.mem_map.mpr ⟨p, hp.1, hp.2⟩)
      have h' : ((acc ++ [(key a, a)]).map Prod.fst ++ t.map key).Nodup := by
        simpa [List.append_assoc] using h
      rw [List.foldl_cons, hupd, ih (acc ++ [(key a, a)]) h']
      simp

/-- Folding list append over singletons is concatenation. -/
theorem foldl_append_singleton (l : List M365Group) :
    ∀ acc : List M365Group,
      l.foldl (fun parsed group => parsed ++ [group]) acc = acc ++ l := by
  induction l with
  | nil => intro acc; simp
  | cons a t ih => intro acc; rw [List.foldl_cons, ih]; simp

/-! ## Claim theorems -/

/-- Claim C1: for a license item present in the section with positive
total, percentage mode with fixed levels `(warn_pct, crit_pct)` yields a
result whose state is CRIT if `available_raw / total * 100 < crit_pct`,
WARN if it is not CRIT and below `warn_pct`, else OK; and the
consumed-percentage metric carries the level pair
`(100 - warn_pct, 100 - crit_pct)`. -/
theorem m365_licenses_percentage_fixed_levels (item : String)
    (sect : List (String × License)) (lic : License) (warn_pct crit_pct : ℚ)
    (hlook : dictGet sect item = some lic)
    (htot : 0 < lic_units_total lic) :
    licResultState (check_m365_licenses item
        (.lic_unit_available_lower_pct (some (warn_pct, crit_pct))) sect)
      = some (if available_pct lic < crit_pct then .crit
          else if available_pct lic < warn_pct then .warn else .ok)
    ∧ available_pct lic = (lic_units_available_raw lic : ℚ) / (lic_units_total lic : ℚ) * 100
    ∧ licMetricLevels "m365_licenses_consumed_pct" (check_m365_licenses item
        (.lic_unit_available_lower_pct (some (warn_pct, crit_pct))) sect)
      = some (some (100 - warn_pct, 100 - crit_pct)) := by
  have hz : lic_units_total lic ≠ 0 := Nat.pos_iff_ne_zero.mp htot
  refine ⟨?_, rfl, ?_⟩ <;>
    simp [licResultState, licMetricLevels, check_m365_licenses, licCheckBranch, hlook, hz,
      firstLicResult, findLicMetric]

/-- Witness for C1 at the `VISIOCLIENT` example with default levels. -/
theorem m365_licenses_percentage_fixed_levels_witness :
    licResultState (check_m365_licenses "VISIOCLIENT"
        (.lic_unit_available_lower_pct (some (10, 5))) secVisio)
      = some (if available_pct licVisio < 5 then .crit
          else if available_pct licVisio < 10 then .warn else .ok)
    ∧ available_pct licVisio
      = (lic_units_available_raw licVisio : ℚ) / (lic_units_total licVisio : ℚ) * 100
    ∧ licMetricLevels "m365_licenses_consumed_pct" (check_m365_licenses "VISIOCLIENT"
        (.lic_unit_available_lower_pct (some (10, 5))) secVisio)
      = some (some (100 - 10, 100 - 5)) :=
  m365_licenses_percentage_fixed_levels "VISIOCLIENT" secVisio licVisio 10 5 rfl (by decide)

/-- Claim C2: for a license item present in the section with positive
total, absolute mode with fixed levels `(warn_units, crit_units)` computes
the thresholds-on-consumed pair `(total - warn_units, total - crit_units)`,
yields CRIT if `consumed > total - crit_units`, WARN if it is not CRIT and
`consumed > total - warn_units`, else OK; and the consumed metric carries
that pair as its levels. -/
theorem m365_licenses_absolute_fixed_levels (item : String)
    (sect : List (String × License)) (lic : License) (warn_units crit_units : ℤ)
    (hlook : dictGet sect item = some lic)
    (htot : 0 < lic_units_total lic) :
    levels_consumed_abs lic warn_units crit_units
      = ((lic_units_total lic : ℤ) - warn_units, (lic_units_total lic : ℤ) - crit_units)
    ∧ licResultState (check_m365_licenses item
        (.lic_unit_available_lower_abs (some (warn_units, crit_units))) sect)
      = some (if (lic.lic_units_consumed : ℤ) >
            (levels_consumed_abs lic warn_units crit_units).2 then .crit
          else if (lic.lic_units_consumed : ℤ) >
            (levels_consumed_abs lic warn_units crit_units).1 then .warn
          else .ok)
    ∧ licMetricLevels "m365_licenses_consumed" (check_m365_licenses item
        (.lic_unit_available_lower_abs (some (warn_units, crit_units))) sect)
      = some (some (((levels_consumed_abs lic warn_units crit_units).1 : ℚ),
          ((levels_consumed_abs lic warn_units crit_units).2 : ℚ))) := by
  have hz : lic_units_total lic ≠ 0 := Nat.pos_iff_ne_zero.mp htot
  refine ⟨rfl, ?_, ?_⟩ <;>
    simp [licResultState, licMetricLevels, check_m365_licenses, licCheckBranch, hlook, hz,
      firstLicResult, findLicMetric]

/-- Witness for C2 at the spec example: levels `(10, 5)` on
`consumed = 44`, `total = 55` give thresholds `(45, 50)`. -/
theorem m365_licenses_absolute_fixed_levels_witness :
    levels_consumed_abs licVisio 10 5
      = ((lic_units_total licVisio : ℤ) - 10, (lic_units_total licVisio : ℤ) - 5)
    ∧ licResultState (check_m365_licenses "VISIOCLIENT"
        (.lic_unit_available_lower_abs (some (10, 5))) secVisio)
      = some (if (licVisio.lic_units_consumed : ℤ) > (levels_consumed_abs licVisio 10 5).2
          then .crit
          else if (licVisio.lic_units_consumed : ℤ) > (levels_consumed_abs licVisio 10 5).1
          then .warn
          else .ok)
    ∧ licMetricLevels "m365_licenses_consumed" (check_m365_licenses "VISIOCLIENT"
        (.lic_unit_available_lower_abs (some (10, 5))) secVisio)
      = some (some (((levels_consumed_abs licVisio 10 5).1 : ℚ),
          ((levels_consumed_abs licVisio 10 5).2 : ℚ))) :=
  m365_licenses_absolute_fixed_levels "VISIOCLIENT" secVisio licVisio 10 5 rfl (by decide)

/-- Claim C3: for a license item present in the section with positive
total, over-licensed mode yields CRIT iff
`available_raw = total - consumed` is negative and OK otherwise, never
WARN; in particular `units_enabled = 10`, `units_warning = 0`,
`units_consumed = 12` gives `available_raw = -2` and state CRIT. -/
theorem m365_licenses_overlicensed_crit_iff_negative (item : String)
    (sect : List (String × License)) (lic : License)
    (hlook : dictGet sect item = some lic)
    (htot : 0 < lic_units_total lic) :
    ((licResultState (check_m365_licenses item .lic_overlicensed sect) = some .crit)
      ↔ lic_units_available_raw lic < 0)
    ∧ licResultState (check_m365_licenses item .lic_overlicensed sect)
      = some (if lic_units_available_raw lic < 0 then .crit else .ok)
    ∧ licResultState (check_m365_licenses item .lic_overlicensed sect) ≠ some .warn
    ∧ lic_units_available_raw licOver = -2
    ∧ licResultState (check_m365_licenses "OVERSKU" .lic_overlicensed [("OVERSKU", licOver)])
      = some .crit := by
  have hz : lic_units_total lic ≠ 0 := Nat.pos_iff_ne_zero.mp htot
  have hstate : licResultState (check_m365_licenses item .lic_overlicensed sect)
      = some (if lic_units_available_raw lic < 0 then .crit else .ok) := by
    simp [licResultState, check_m365_licenses, licCheckBranch, hlook, hz, firstLicResult]
  refine ⟨?_, hstate, ?_, by decide, by rfl⟩
  · rw [hstate]
    by_cases hneg : lic_units_available_raw lic < 0 <;> simp [hneg]
  · rw [hstate]
    by_cases hneg : lic_units_available_raw lic < 0 <;> simp [hneg]

/-- Witness for C3 at the over-assigned example. -/
theorem m365_licenses_overlicensed_crit_iff_negative_witness :
    ((licResultState (check_m365_licenses "OVERSKU" .lic_overlicensed [("OVERSKU", licOver)])
        = some .crit)
      ↔ lic_units_available_raw licOver < 0)
    ∧ licResultState (check_m365_licenses "OVERSKU" .lic_overlicensed [("OVERSKU", licOver)])
      = some (if lic_units_available_raw licOver < 0 then .crit else .ok)
    ∧ licResultState (check_m365_licenses "OVERSKU" .lic_overlicensed [("OVERSKU", licOver)])
      ≠ some .warn
    ∧ lic_units_available_raw licOver = -2
    ∧ licResultState (check_m365_licenses "OVERSKU" .lic_overlicensed [("OVERSKU", licOver)])
      = some .crit :=
  m365_licenses_overlicensed_crit_iff_negative "OVERSKU" [("OVERSKU", licOver)] licOver rfl
    (by decide)

/-- Claim C4: for a license item present in the section (with non-zero
total, which the claim's instance satisfies), the check computes
`total = units_enabled + units_warning`,
`consumed_pct = round(consumed / total * 100, 2)`,
`available_raw = total - consumed` and `available = max(0, available_raw)`;
for `units_enabled = 50`, `units_warning = 5`, `units_consumed = 44` these
are `55`, `80.0`, `11` and `11`. -/
theorem m365_licenses_computed_quantities (item : String)
    (sect : List (String × License)) (lic : License) (params : LicUnitAvailableLower)
    (hlook : dictGet sect item = some lic)
    (htot : 0 < lic_units_total lic) :
    licMetricValue "m365_licenses_total" (check_m365_licenses item params sect)
      = some (lic_units_total lic)
    ∧ lic_units_total lic = lic.lic_units_enabled + lic.lic_units_warning
    ∧ licMetricValue "m365_licenses_consumed_pct" (check_m365_licenses item params sect)
      = some (lic_units_consumed_pct lic)
    ∧ lic_units_consumed_pct lic
      = pyRound2 ((lic.lic_units_consumed : ℚ) / (lic_units_total lic : ℚ) * 100)
    ∧ lic_units_available_raw lic
      = (lic_units_total lic : ℤ) - (lic.lic_units_consumed : ℤ)
    ∧ licResultAvailable (check_m365_licenses item params sect)
      = some (max 0 (lic_units_available_raw lic))
    ∧ licMetricValue "m365_licenses_available" (check_m365_licenses item params sect)
      = some ((max 0 (lic_units_available_raw lic) : ℤ) : ℚ)
    ∧ lic_units_total licVisio = 55
    ∧ lic_units_consumed_pct licVisio = 80
    ∧ lic_units_available_raw licVisio = 11
    ∧ lic_units_available licVisio = 11 := by
  have hz : lic_units_total lic ≠ 0 := Nat.pos_iff_ne_zero.mp htot
  refine ⟨?_, rfl, ?_, rfl, rfl, ?_, ?_, by decide, ?_, by decide, by decide⟩
  · simp [licMetricValue, check_m365_licenses, hlook, hz, findLicMetric]
  · simp [licMetricValue, check_m365_licenses, hlook, hz, findLicMetric]
  · simp [licResultAvailable, check_m365_licenses, hlook, hz, firstLicResult,
      lic_units_available]
  · simp [licMetricValue, check_m365_licenses, hlook, hz, findLicMetric,
      lic_units_available]
  · norm_num [lic_units_consumed_pct, lic_units_total, licVisio, pyRound2, pyRoundHalfEven]

/-- Witness for C4 at the `VISIOCLIENT` example. -/
theorem m365_licenses_computed_quantities_witness :
    licMetricValue "m365_licenses_total"
        (check_m365_licenses "VISIOCLIENT" .lic_overlicensed secVisio)
      = some (lic_units_total licVisio)
    ∧ lic_units_total licVisio = licVisio.lic_units_enabled + licVisio.lic_units_warning
    ∧ licMetricValue "m365_licenses_consumed_pct"
        (check_m365_licenses "VISIOCLIENT" .lic_overlicensed secVisio)
      = some (lic_units_consumed_pct licVisio)
    ∧ lic_units_consumed_pct licVisio
      = pyRound2 ((licVisio.lic_units_consumed : ℚ) / (lic_units_total licVisio : ℚ) * 100)
    ∧ lic_units_available_raw licVisio
      = (lic_units_total licVisio : ℤ) - (licVisio.lic_units_consumed : ℤ)
    ∧ licResultAvailable (check_m365_licenses "VISIOCLIENT" .lic_overlicensed secVisio)
      = some (max 0 (lic_units_available_raw licVisio))
    ∧ licMetricValue "m365_licenses_available"
        (check_m365_licenses "VISIOCLIENT" .lic_overlicensed secVisio)
      = some ((max 0 (lic_units_available_raw licVisio) : ℤ) : ℚ)
    ∧ lic_units_total licVisio = 55
    ∧ lic_units_consumed_pct licVisio = 80
    ∧ lic_units_available_raw licVisio = 11
    ∧ lic_units_available licVisio = 11 :=
  m365_licenses_computed_quantities "VISIOCLIENT" secVisio licVisio .lic_overlicensed rfl
    (by decide)

/-- Claim C5: for a service item present in the section with a non-empty
issue list, the result state is Checkmk's worst of the per-issue
severities, each obtained by looking up the issue classification in the
params mapping with default 0; on severities not exceeding 2 the worst is
the numeric maximum; one advisory issue under the default params
`{incident: 2, advisory: 1}` yields WARN with incident count 0 and
advisory count 1. -/
theorem m365_service_health_worst_severity :
    (∀ (item : String) (params : List (String × ℕ))
        (sect : List (String × MicrosoftService)) (svc : MicrosoftService),
      dictGet sect item = some svc → svc.service_issues ≠ [] →
      svcResultState (check_m365_service_health item params sect)
        = some (CmkState.worst (svc.service_issues.map
            (fun issue => (dictGet params issue.issue_classification).getD 0))))
    ∧ (∀ l : List ℕ, (∀ s ∈ l, s ≤ 2) →
        CmkState.worst l = CmkState.fromNat (l.foldr max 0))
    ∧ svcResultState (check_m365_service_health "Exchange Online" svcDefaultParams
        [("Exchange Online", svcExchange)]) = some .warn
    ∧ svcMetricValue "m365_service_health_count_incident"
        (check_m365_service_health "Exchange Online" svcDefaultParams
          [("Exchange Online", svcExchange)]) = some 0
    ∧ svcMetricValue "m365_service_health_count_advisory"
        (check_m365_service_health "Exchange Online" svcDefaultParams
          [("Exchange Online", svcExchange)]) = some 1 := by
  refine ⟨?_, ?_, by rfl, by rfl, by rfl⟩
  · intro item params sect svc hlook hne
    have hempty : svc.service_issues.isEmpty = false := by
      cases hI : svc.service_issues with
      | nil => exact absurd hI hne
      | cons a t => rfl
    simp [svcResultState, check_m365_service_health, hlook, hempty, firstSvcResult]
  · intro l h
    unfold CmkState.worst
    by_cases h2 : 2 ∈ l
    · rw [if_pos h2, le_antisymm (foldr_max_le h) (le_foldr_max h2)]
      rfl
    · rw [if_neg h2]

/-- Witness for C5 at the one-advisory `Exchange Online` example. -/
theorem m365_service_health_worst_severity_witness :
    svcResultState (check_m365_service_health "Exchange Online" svcDefaultParams
        [("Exchange Online", svcExchange)])
      = some (CmkState.worst (svcExchange.service_issues.map
          (fun issue => (dictGet svcDefaultParams issue.issue_classification).getD 0)))
    ∧ CmkState.worst [1] = CmkState.fromNat ([1].foldr max 0) :=
  ⟨m365_service_health_worst_severity.1 "Exchange Online" svcDefaultParams
      [("Exchange Online", svcExchange)] svcExchange rfl (by decide),
   m365_service_health_worst_severity.2.1 [1] (by decide)⟩

/-- Counterexample to claim C7 as stated: on an empty service mapping the
service-health check yields no output at all (in particular no OK result
and no metrics). -/
theorem m365_service_health_empty_mapping_no_result :
    check_m365_service_health "Exchange Online" svcDefaultParams [] = []
    ∧ svcResultState (check_m365_service_health "Exchange Online" svcDefaultParams [])
      = none :=
  ⟨rfl, rfl⟩

/-- Claim C7 as amended: an empty group list makes the group-based
licensing check report OK (that check emits no metrics); on an empty
service mapping the service-health check yields no result at all; a
service item present with an empty issue list reports OK with zero-valued
incident and advisory metrics. -/
theorem m365_empty_inputs_report_ok (item : String) (params : List (String × ℕ))
    (sect : List (String × MicrosoftService)) (svc : MicrosoftService)
    (hlook : dictGet sect item = some svc)
    (hissues : svc.service_issues = []) :
    check_m365_group_based_licensing []
      = [{ state := .ok, summary := "No groups with errors" }]
    ∧ check_m365_service_health item params [] = []
    ∧ check_m365_service_health item params sect
      = [.result { state := .ok, summary := .noOpenIssues },
         .metric ⟨"m365_service_health_count_incident", 0, none⟩,
         .metric ⟨"m365_service_health_count_advisory", 0, none⟩] := by
  refine ⟨rfl, rfl, ?_⟩
  simp [check_m365_service_health, hlook, hissues]

/-- Witness for the amended C7 at the issue-free `Microsoft Entra`
example. -/
theorem m365_empty_inputs_report_ok_witness :
    check_m365_group_based_licensing []
      = [{ state := .ok, summary := "No groups with errors" }]
    ∧ check_m365_service_health "Microsoft Entra" svcDefaultParams [] = []
    ∧ check_m365_service_health "Microsoft Entra" svcDefaultParams
        [("Microsoft Entra", svcEntra)]
      = [.result { state := .ok, summary := .noOpenIssues },
         .metric ⟨"m365_service_health_count_incident", 0, none⟩,
         .metric ⟨"m365_service_health_count_advisory", 0, none⟩] :=
  m365_empty_inputs_report_ok "Microsoft Entra" svcDefaultParams
    [("Microsoft Entra", svcEntra)] svcEntra rfl rfl

/-- Claim C8: an item absent from the parsed section makes both
`check_m365_licenses` and `check_m365_service_health` yield no output and
raise no exception. -/
theorem m365_missing_item_yields_nothing (itemL : String) (paramsL : LicUnitAvailableLower)
    (sectL : List (String × License)) (itemS : String) (paramsS : List (String × ℕ))
    (sectS : List (String × MicrosoftService))
    (hL : dictGet sectL itemL = none)
    (hS : dictGet sectS itemS = none) :
    check_m365_licenses itemL paramsL sectL = .ok []
    ∧ check_m365_service_health itemS paramsS sectS = [] := by
  constructor
  · simp [check_m365_licenses, hL]
  · simp [check_m365_service_health, hS]

/-- Witness for C8: the item `"MISSING"` is in neither section. -/
theorem m365_missing_item_yields_nothing_witness :
    check_m365_licenses "MISSING" .lic_overlicensed secVisio = .ok []
    ∧ check_m365_service_health "MISSING" svcDefaultParams
        [("Exchange Online", svcExchange)] = [] :=
  m365_missing_item_yields_nothing "MISSING" .lic_overlicensed secVisio "MISSING"
    svcDefaultParams [("Exchange Online", svcExchange)] rfl rfl

/-- Counterexample to claim C9 as stated: two license objects sharing the
`sku_name` key `"DUPSKU"` collapse to the later one in the parsed mapping,
so re-serializing the mapping cannot reproduce both input objects. -/
theorem m365_parse_duplicate_sku_lossy :
    (parse_m365_licenses [licDupA, licDupB]).map Prod.snd = [licDupB]
    ∧ (parse_m365_licenses [licDupA, licDupB]).map Prod.snd ≠ [licDupA, licDupB] :=
  ⟨rfl, by decide⟩

/-- Claim C9 as amended: parsing performs no lossy transform on field
values — the group parse reproduces its input unconditionally, and the
licenses and service-health parses reproduce every input object with all
field values unchanged provided the `sku_name` (resp. `service_name`) keys
are pairwise distinct. -/
theorem m365_parse_roundtrip_distinct_keys :
    (∀ groups : List M365Group, parse_m365_group_based_licensing groups = groups)
    ∧ (∀ items : List License, (items.map License.lic_sku_name).Nodup →
        (parse_m365_licenses items).map Prod.snd = items)
    ∧ (∀ items : List MicrosoftService, (items.map MicrosoftService.service_name).Nodup →
        (parse_m365_service_health items).map Prod.snd = items) := by
  refine ⟨?_, ?_, ?_⟩
  · intro groups
    unfold parse_m365_group_based_licensing
    rw [foldl_append_singleton]
    simp
  · intro items h
    unfold parse_m365_licenses
    rw [foldl_dictUpdate_eq License.lic_sku_name items [] (by simpa using h)]
    simp only [List.nil_append]
    have hcomp : (Prod.snd ∘ fun item : License => (item.lic_sku_name, item)) = id := rfl
    rw [List.map_map, hcomp, List.map_id]
  · intro items h
    unfold parse_m365_service_health
    rw [foldl_dictUpdate_eq MicrosoftService.service_name items [] (by simpa using h)]
    simp only [List.nil_append]
    have hcomp : (Prod.snd ∘ fun item : MicrosoftService => (item.service_name, item)) = id :=
      rfl
    rw [List.map_map, hcomp, List.map_id]

/-- Witness for the amended C9 on concrete key-distinct inputs. -/
theorem m365_parse_roundtrip_distinct_keys_witness :
    parse_m365_group_based_licensing [⟨"g-id", "g-name"⟩] = [⟨"g-id", "g-name"⟩]
    ∧ (parse_m365_licenses [licDupA]).map Prod.snd = [licDupA]
    ∧ (parse_m365_service_health [svcExchange, svcEntra]).map Prod.snd
      = [svcExchange, svcEntra] :=
  ⟨m365_parse_roundtrip_distinct_keys.1 [⟨"g-id", "g-name"⟩],
   m365_parse_roundtrip_distinct_keys.2.1 [licDupA] (by decide),
   m365_parse_roundtrip_distinct_keys.2.2 [svcExchange, svcEntra] (by decide)⟩

/-- Claim C6: a license item present in the section whose
`units_enabled + units_warning` is zero makes the check fail with a
division-by-zero error regardless of the configured threshold mode. -/
theorem m365_licenses_zero_total_division_error (item : String)
    (sect : List (String × License)) (lic : License) (params : LicUnitAvailableLower)
    (hlook : dictGet sect item = some lic)
    (htot : lic_units_total lic = 0) :
    check_m365_licenses item params sect = .error .divisionByZero := by
  simp [check_m365_licenses, hlook, htot]

/-- Witness for C6 at the suspended `THREAT_INTELLIGENCE` example. -/
theorem m365_licenses_zero_total_division_error_witness :
    check_m365_licenses "THREAT_INTELLIGENCE" (.lic_unit_available_lower_pct (some (10, 5)))
        [("THREAT_INTELLIGENCE", licZero)]
      = .error .divisionByZero :=
  m365_licenses_zero_total_division_error "THREAT_INTELLIGENCE"
    [("THREAT_INTELLIGENCE", licZero)] licZero
    (.lic_unit_available_lower_pct (some (10, 5))) rfl (by decide)

/-- Claim C10: for a license item present in the section with positive
total, percentage or absolute mode with the "no levels" choice yields
state OK, a summary without threshold note, and consumed /
consumed-percentage metrics with an empty level pair. -/
theorem m365_licenses_no_levels_ok (item : String)
    (sect : List (String × License)) (lic : License) (params : LicUnitAvailableLower)
    (hlook : dictGet sect item = some lic)
    (htot : 0 < lic_units_total lic)
    (hp : params = .lic_unit_available_lower_pct none
        ∨ params = .lic_unit_available_lower_abs none) :
    licResultState (check_m365_licenses item params sect) = some .ok
    ∧ licResultLevel (check_m365_licenses item params sect) = some none
    ∧ licMetricLevels "m365_licenses_consumed" (check_m365_licenses item params sect)
      = some none
    ∧ licMetricLevels "m365_licenses_consumed_pct" (check_m365_licenses item params sect)
      = some none := by
  have hz : lic_units_total lic ≠ 0 := Nat.pos_iff_ne_zero.mp htot
  rcases hp with h | h <;> subst h <;>
    refine ⟨?_, ?_, ?_, ?_⟩ <;>
      simp [licResultState, licResultLevel, licMetricLevels, check_m365_licenses,
        licCheckBranch, hlook, hz, firstLicResult, findLicMetric]

/-- Witness for C10 at the `VISIOCLIENT` example with percentage mode and
no levels. -/
theorem m365_licenses_no_levels_ok_witness :
    licResultState (check_m365_licenses "VISIOCLIENT"
        (.lic_unit_available_lower_pct none) secVisio) = some .ok
    ∧ licResultLevel (check_m365_licenses "VISIOCLIENT"
        (.lic_unit_available_lower_pct none) secVisio) = some none
    ∧ licMetricLevels "m365_licenses_consumed" (check_m365_licenses "VISIOCLIENT"
        (.lic_unit_available_lower_pct none) secVisio) = some none
    ∧ licMetricLevels "m365_licenses_consumed_pct" (check_m365_licenses "VISIOCLIENT"
        (.lic_unit_available_lower_pct none) secVisio) = some none :=
  m365_licenses_no_levels_ok "VISIOCLIENT" secVisio licVisio
    (.lic_unit_available_lower_pct none) rfl (by decide) (Or.inl rfl)
